import Mathlib

/-!
Verification development for the WS-Discovery validator
(scripts/ws_discovery_validator.py).

The script is embedded shallowly:

* XML documents are modelled as rose trees of namespace-qualified elements
  carrying optional text, mirroring what lxml's etree hands to the script
  after a successful parse.  The element-path lookups the script performs
  (descendant search by qualified name, direct-child search, the
  EndpointReference/Address two-step path) are modelled as document-order
  searches over that tree.
* Python string helpers used by the script (str.strip, str.split, int(),
  substring containment, truthiness of optional strings) are modelled as
  executable functions over the character lists of Lean strings.
* A datagram is modelled at the boundary of etree.fromstring: either the
  bytes are malformed (fromstring raises XMLSyntaxError, which
  parse_response catches) or they are a well-formed document tree.
* Wall-clock time is abstracted: parse_response receives the already
  computed response time in milliseconds, and the receive loop is modelled
  as a fold over the finite sequence of datagrams that arrive before the
  deadline.  The socket layer itself is not modelled.
-/

/-- Namespace-qualified element name: namespace URI plus local tag. -/
structure QName where
  nsUri : String
  tag : String
deriving DecidableEq

/-- Rose tree of XML elements, as produced by etree.fromstring.  Only the
pieces the validator inspects are kept: qualified name, the element's text,
and its child elements. -/
inductive XML where
  | elem (qname : QName) (text : Option String) (children : List XML)

/-- Qualified name of an element. -/
def XML.qname : XML → QName
  | .elem q _ _ => q

/-- Text content of an element (lxml's .text, None when absent). -/
def XML.text : XML → Option String
  | .elem _ t _ => t

/-- Direct children of an element. -/
def XML.children : XML → List XML
  | .elem _ _ cs => cs

mutual

/-- Strict descendants of an element in document order, the search space of
an ElementPath .//tag lookup (the root itself is excluded). -/
def XML.descendants : XML → List XML
  | .elem _ _ cs => XML.descList cs

/-- Descendants of a forest in document order: each root followed by its own
descendants. -/
def XML.descList : List XML → List XML
  | [] => []
  | c :: cs => c :: (XML.descendants c ++ XML.descList cs)

end

/-- First element of a list whose qualified name is q, in order. -/
def findFirst (q : QName) : List XML → Option XML
  | [] => none
  | c :: cs => if c.qname = q then some c else findFirst q cs

/-- Model of root.find with a .//prefix:tag path: first matching strict
descendant in document order. -/
def findDesc (q : QName) (x : XML) : Option XML :=
  findFirst q x.descendants

/-- Model of elem.find with a prefix:tag path (no //): first matching direct
child. -/
def findChild (q : QName) (x : XML) : Option XML :=
  findFirst q x.children

/-- Helper for the .//q1/q2 path: walk candidates for q1 in document order
and return the first q2 child found under any of them. -/
def findDescChildAux (q1 q2 : QName) : List XML → Option XML
  | [] => none
  | c :: cs =>
    if c.qname = q1 then
      match findFirst q2 c.children with
      | some e => some e
      | none => findDescChildAux q1 q2 cs
    else findDescChildAux q1 q2 cs

/-- Model of root.find with a .//p:q1/p:q2 path, as used for
EndpointReference/Address. -/
def findDescChild (q1 q2 : QName) (x : XML) : Option XML :=
  findDescChildAux q1 q2 x.descendants

/-- Whitespace as recognised by Python's str.strip and str.split (the ASCII
whitespace characters; the script only meets ASCII documents). -/
def pySpace (c : Char) : Bool :=
  c == ' ' || c == '\t' || c == '\n' || c == '\r' || c == '\x0b' || c == '\x0c'

/-- Both-ends whitespace trim on a character list (str.strip). -/
def trimList (cs : List Char) : List Char :=
  ((cs.dropWhile pySpace).reverse.dropWhile pySpace).reverse

/-- Model of Python str.strip with no arguments. -/
def pyStrip (s : String) : String :=
  String.mk (trimList s.data)

/-- Helper of pySplitWS: accumulate the current word (reversed) while
scanning; whitespace runs close the word, and empty words are dropped,
matching str.split with no arguments. -/
def splitWSAux : List Char → List Char → List String
  | [], acc => if acc = [] then [] else [String.mk acc.reverse]
  | c :: cs, acc =>
    if pySpace c then
      if acc = [] then splitWSAux cs []
      else String.mk acc.reverse :: splitWSAux cs []
    else splitWSAux cs (c :: acc)

/-- Model of Python str.split with no arguments: split on whitespace runs,
discarding empty pieces. -/
def pySplitWS (s : String) : List String :=
  splitWSAux s.data []

/-- Decimal digit run to a number; none on an empty or non-digit input. -/
def digitsToNatAux : List Char → Nat → Option Nat
  | [], acc => some acc
  | c :: cs, acc =>
    if c.isDigit then digitsToNatAux cs (acc * 10 + (c.toNat - 48))
    else none

/-- Model of Python int() applied to an already stripped ASCII string: an
optional sign followed by at least one decimal digit; anything else raises
ValueError, which the script maps to None. -/
def pyInt? (s : String) : Option Int :=
  match s.data with
  | [] => none
  | c :: cs =>
    if c = '-' then
      match cs with
      | [] => none
      | _ :: _ => (digitsToNatAux cs 0).map (fun n => -(n : Int))
    else if c = '+' then
      match cs with
      | [] => none
      | _ :: _ => (digitsToNatAux cs 0).map (fun n => (n : Int))
    else (digitsToNatAux (c :: cs) 0).map (fun n => (n : Int))

/-- Byte-for-byte prefix test on character lists. -/
def listPrefixEq : List Char → List Char → Bool
  | [], _ => true
  | _ :: _, [] => false
  | a :: as, b :: bs => a == b && listPrefixEq as bs

/-- Substring scan: does the haystack contain the needle as a contiguous
run?  Model of Python's x in s on strings. -/
def listContains (needle : List Char) : List Char → Bool
  | [] => needle.isEmpty
  | b :: bs => listPrefixEq needle (b :: bs) || listContains needle bs

/-- Model of Python's substring test needle in hay. -/
def strContains (hay needle : String) : Bool :=
  listContains needle.data hay.data

/-- Model of the script's pattern x.strip() if x else default-empty, applied
to an optional text node: None and the empty string are falsy. -/
def truthyStrip : Option String → String
  | none => ""
  | some t => if t = "" then "" else pyStrip t

/-- Model of the pattern returning x.text.strip() only when the element was
found and its text is truthy, and None otherwise. -/
def truthyStripOpt : Option XML → Option String
  | none => none
  | some e =>
    match e.text with
    | none => none
    | some t => if t = "" then none else some (pyStrip t)

-- Namespace URIs used by the script (module constants).

/-- SOAP 1.2 envelope namespace. -/
def nsSoap : String := "http://www.w3.org/2003/05/soap-envelope"

/-- WS-Addressing 2004/08 namespace (the 2005/04 discovery profile). -/
def nsAddr2004 : String := "http://schemas.xmlsoap.org/ws/2004/08/addressing"

/-- WS-Discovery 2005/04 namespace. -/
def nsDisc2005 : String := "http://schemas.xmlsoap.org/ws/2005/04/discovery"

/-- WS-Addressing 2005/08 namespace (the 2009/01 discovery profile). -/
def nsAddr2005 : String := "http://www.w3.org/2005/08/addressing"

/-- WS-Discovery 2009/01 namespace. -/
def nsDisc2009 : String := "http://docs.oasis-open.org/ws-dd/ns/discovery/2009/01"

/-- ONVIF network wsdl namespace. -/
def nsOnvif : String := "http://www.onvif.org/ver10/network/wsdl"

/-- Prefix table handed to lxml find calls: prefixes s, a, d, tdn. -/
structure NsMap where
  s : String
  a : String
  d : String
  tdn : String
deriving DecidableEq

/-- NAMESPACES constant of the script (2005/04 discovery profile). -/
def NAMESPACES : NsMap :=
  { s := nsSoap, a := nsAddr2004, d := nsDisc2005, tdn := nsOnvif }

/-- NAMESPACES_2009 constant of the script (2009/01 discovery profile). -/
def NAMESPACES_2009 : NsMap :=
  { s := nsSoap, a := nsAddr2005, d := nsDisc2009, tdn := nsOnvif }

/-- ACTION_PROBE_MATCHES constant of the script. -/
def ACTION_PROBE_MATCHES : String :=
  "http://schemas.xmlsoap.org/ws/2005/04/discovery/ProbeMatches"

/-- ProbeMatches action URI of the 2009/01 profile, as sent by newer
devices. -/
def ACTION_PROBE_MATCHES_2009 : String :=
  "http://docs.oasis-open.org/ws-dd/ns/discovery/2009/01/ProbeMatches"

-- Element tags and message-type strings used by the script.

/-- Tag Action. -/
def actionTag : String := "Action"

/-- Tag RelatesTo. -/
def relatesToTag : String := "RelatesTo"

/-- Tag EndpointReference. -/
def endpointReferenceTag : String := "EndpointReference"

/-- Tag Address. -/
def addressTag : String := "Address"

/-- Tag XAddrs. -/
def xaddrsTag : String := "XAddrs"

/-- Tag Types. -/
def typesTag : String := "Types"

/-- Tag Scopes. -/
def scopesTag : String := "Scopes"

/-- Tag MetadataVersion. -/
def metadataVersionTag : String := "MetadataVersion"

/-- Message-type string ProbeMatch. -/
def probeMatchStr : String := "ProbeMatch"

/-- Message-type string Hello, also the substring the classifier looks
for. -/
def helloStr : String := "Hello"

/-- Substring the classifier looks for to recognise ProbeMatches
actions. -/
def probeMatchesStr : String := "ProbeMatches"

/-- DiscoveredDevice dataclass of the script.  response_time_ms is kept
abstract as a natural number of milliseconds (the script computes it from
wall-clock time, which is not modelled). -/
structure DiscoveredDevice where
  endpoint_uuid : String
  xaddrs : List String
  types : List String
  scopes : List String
  metadata_version : Option Int
  source_ip : String
  source_port : Nat
  response_time_ms : Nat
  message_type : String
  relates_to : Option String
deriving DecidableEq

/-- The message_id built by build_probe_message: the literal uuid: followed
by the freshly generated UUID text, here a parameter. -/
def build_probe_message_id (u : String) : String :=
  "uuid:" ++ u

/-- Model of _find_action_element: try the prefix tables NAMESPACES and
NAMESPACES_2009 in that order for a descendant a:Action; the table that
succeeds becomes the active one, defaulting to NAMESPACES. -/
def find_action_element (root : XML) : Option XML × NsMap :=
  match findDesc ⟨NAMESPACES.a, actionTag⟩ root with
  | some e => (some e, NAMESPACES)
  | none =>
    match findDesc ⟨NAMESPACES_2009.a, actionTag⟩ root with
    | some e => (some e, NAMESPACES_2009)
    | none => (none, NAMESPACES)

/-- Model of _find_match_element: look for the ProbeMatch (or Hello)
element under the active profile, then directly under the 2005/04 and
2009/01 discovery URIs. -/
def find_match_element (root : XML) (message_type : String) (active_ns : NsMap) : Option XML :=
  if message_type = probeMatchStr then
    match findDesc ⟨active_ns.d, probeMatchStr⟩ root with
    | some e => some e
    | none =>
      match findDesc ⟨nsDisc2005, probeMatchStr⟩ root with
      | some e => some e
      | none => findDesc ⟨nsDisc2009, probeMatchStr⟩ root
  else
    match findDesc ⟨active_ns.d, helloStr⟩ root with
    | some e => some e
    | none =>
      match findDesc ⟨nsDisc2005, helloStr⟩ root with
      | some e => some e
      | none => findDesc ⟨nsDisc2009, helloStr⟩ root

/-- Model of _extract_element_text: direct child under the active profile's
discovery prefix, then directly under the 2005/04 URI, then under the
2009/01 URI. -/
def extract_element_text (match_elem : XML) (elem_name : String) (active_ns : NsMap) : Option XML :=
  match findChild ⟨active_ns.d, elem_name⟩ match_elem with
  | some e => some e
  | none =>
    match findChild ⟨nsDisc2005, elem_name⟩ match_elem with
    | some e => some e
    | none => findChild ⟨nsDisc2009, elem_name⟩ match_elem

/-- Model of _extract_relates_to: for a ProbeMatch only, a single
descendant lookup of a:RelatesTo under the active profile; the stripped
text when truthy, None otherwise. -/
def extract_relates_to (root : XML) (message_type : String) (active_ns : NsMap) : Option String :=
  if message_type ≠ probeMatchStr then none
  else truthyStripOpt (findDesc ⟨active_ns.a, relatesToTag⟩ root)

/-- Model of _extract_endpoint_uuid: the .//EndpointReference/Address path
under the active profile's addressing prefix, then any descendant Address
under the 2004/08 addressing URI, then under the 2005/08 addressing URI;
empty string when nothing truthy is found. -/
def extract_endpoint_uuid (match_elem : XML) (active_ns : NsMap) : String :=
  let found :=
    match findDescChild ⟨active_ns.a, endpointReferenceTag⟩ ⟨active_ns.a, addressTag⟩ match_elem with
    | some e => some e
    | none =>
      match findDesc ⟨nsAddr2004, addressTag⟩ match_elem with
      | some e => some e
      | none => findDesc ⟨nsAddr2005, addressTag⟩ match_elem
  match found with
  | some e => truthyStrip e.text
  | none => ""

/-- Model of _extract_text_list: stripped, whitespace-split token list of
the element found by extract_element_text; empty when absent or blank. -/
def extract_text_list (match_elem : XML) (elem_name : String) (active_ns : NsMap) : List String :=
  match extract_element_text match_elem elem_name active_ns with
  | some e =>
    match e.text with
    | some t => if t = "" then [] else pySplitWS (pyStrip t)
    | none => []
  | none => []

/-- Model of _extract_metadata_version: the element's stripped text through
int(), with ValueError mapped to None. -/
def extract_metadata_version (match_elem : XML) (active_ns : NsMap) : Option Int :=
  match extract_element_text match_elem metadataVersionTag active_ns with
  | some e =>
    match e.text with
    | some t => if t = "" then none else pyInt? (pyStrip t)
    | none => none
  | none => none

/-- Result of etree.fromstring on a received datagram: either the bytes are
not well-formed XML (fromstring raises XMLSyntaxError) or a document tree
is produced. -/
inductive RawDatagram where
  | malformed
  | xml (root : XML)

/-- Classification step of parse_response: substring match on the Action
value; ProbeMatches wins over Hello, anything else is unrecognized. -/
def classify_action (action : String) : Option String :=
  if strContains action probeMatchesStr then some probeMatchStr
  else if strContains action helloStr then some helloStr
  else none

/-- Tail of parse_response after the Action header has been located: the
classification, the match-element lookup, and the field extraction of
_extract_device_data assembled into a DiscoveredDevice. -/
def parse_recognized (root : XML) (active_ns : NsMap) (action source_ip : String)
    (source_port response_time_ms : Nat) : Option DiscoveredDevice :=
  match classify_action action with
  | none => none
  | some mt =>
    match find_match_element root mt active_ns with
    | none => none
    | some match_elem =>
      some
        { endpoint_uuid := extract_endpoint_uuid match_elem active_ns
          xaddrs := extract_text_list match_elem xaddrsTag active_ns
          types := extract_text_list match_elem typesTag active_ns
          scopes := extract_text_list match_elem scopesTag active_ns
          metadata_version := extract_metadata_version match_elem active_ns
          source_ip := source_ip
          source_port := source_port
          response_time_ms := response_time_ms
          message_type := mt
          relates_to := extract_relates_to root mt active_ns }

/-- Model of parse_response.  The response time is passed in already
computed; the XMLSyntaxError branch of the script is the malformed case,
which yields None exactly as the handler does. -/
def parse_response (data : RawDatagram) (source_ip : String) (source_port : Nat)
    (response_time_ms : Nat) : Option DiscoveredDevice :=
  match data with
  | .malformed => none
  | .xml root =>
    match find_action_element root with
    | (none, _) => none
    | (some action_elem, active_ns) =>
      parse_recognized root active_ns (truthyStrip action_elem.text)
        source_ip source_port response_time_ms

/-- Model of _should_accept_device: a ProbeMatch must carry the run's
message id in relates_to; a Hello is dropped unless listening for Hello
was requested; everything else (unreachable from parse_response) passes. -/
def should_accept_device (device : DiscoveredDevice) (message_id : String)
    (listen_hello : Bool) : Bool :=
  if device.message_type = probeMatchStr then
    if device.relates_to ≠ some message_id then false else true
  else if device.message_type = helloStr ∧ listen_hello = false then false
  else true

/-- Dedup key of _process_received_device: endpoint_uuid when truthy, else
the source ip:port string (Python's x or y on strings). -/
def dedupKey (device : DiscoveredDevice) : String :=
  if device.endpoint_uuid ≠ "" then device.endpoint_uuid
  else device.source_ip ++ ":" ++ toString device.source_port

/-- Model of _process_received_device over an insertion-ordered table: a
new key is appended, an existing key leaves the table unchanged. -/
def process_received_device (device : DiscoveredDevice)
    (devices : List (String × DiscoveredDevice)) : List (String × DiscoveredDevice) :=
  if (devices.map Prod.fst).contains (dedupKey device) then devices
  else devices ++ [(dedupKey device, device)]

/-- One received datagram of the receive loop: the fromstring outcome plus
its network origin and the response time at receipt. -/
structure Packet where
  data : RawDatagram
  source_ip : String
  source_port : Nat
  response_time_ms : Nat

/-- Model of _process_packet: parse, filter through _should_accept_device,
merge through _process_received_device. -/
def process_packet (p : Packet) (message_id : String) (listen_hello : Bool)
    (devices : List (String × DiscoveredDevice)) : List (String × DiscoveredDevice) :=
  match parse_response p.data p.source_ip p.source_port p.response_time_ms with
  | none => devices
  | some device =>
    if should_accept_device device message_id listen_hello then
      process_received_device device devices
    else devices

/-- Model of _receive_responses: fold the packets that arrive before the
deadline through _process_packet, starting from the empty table. -/
def receive_responses (packets : List Packet) (message_id : String)
    (listen_hello : Bool) : List (String × DiscoveredDevice) :=
  packets.foldl (fun devices p => process_packet p message_id listen_hello devices) []

/-- DiscoveryResult dataclass of the script (elapsed wall time is not
modelled; errors of the recvfrom handler are not modelled either, since no
socket exists in the model). -/
structure DiscoveryResult where
  success : Bool
  message : String
  probe_message_id : String
  devices : List DiscoveredDevice
  total_devices : Nat
  errors : List String
deriving DecidableEq

/-- Message used by discover_devices when devices were found. -/
def discoveredMsg (n : Nat) : String :=
  "Discovered " ++ toString n ++ " ONVIF device(s)"

/-- Message used by discover_devices when no device was found. -/
def noDevicesMsg : String := "No ONVIF devices discovered"

/-- Model of discover_devices on the happy path (socket setup succeeded):
build the probe id, run the receive loop over the arriving packets, and
render the table into the report; success is the truthiness of the
table. -/
def discover_devices (u : String) (packets : List Packet)
    (listen_hello : Bool) : DiscoveryResult :=
  let message_id := build_probe_message_id u
  let devices := receive_responses packets message_id listen_hello
  { success := !devices.isEmpty
    message := if devices.isEmpty then noDevicesMsg else discoveredMsg devices.length
    probe_message_id := message_id
    devices := devices.map Prod.snd
    total_devices := devices.length
    errors := [] }

/-- ProbeMatch response document shaped as a device following the 2005/04
profile sends it: 2004/08 addressing header, 2005/04 discovery body.  The
field texts are parameters. -/
def mkProbeMatch2005 (rel addr xa ty sc mv : String) : XML :=
  .elem ⟨nsSoap, "Envelope"⟩ none
    [ .elem ⟨nsSoap, "Header"⟩ none
        [ .elem ⟨nsAddr2004, actionTag⟩ (some ACTION_PROBE_MATCHES) []
        , .elem ⟨nsAddr2004, relatesToTag⟩ (some rel) [] ]
    , .elem ⟨nsSoap, "Body"⟩ none
        [ .elem ⟨nsDisc2005, probeMatchesStr⟩ none
            [ .elem ⟨nsDisc2005, probeMatchStr⟩ none
                [ .elem ⟨nsAddr2004, endpointReferenceTag⟩ none
                    [ .elem ⟨nsAddr2004, addressTag⟩ (some addr) [] ]
                , .elem ⟨nsDisc2005, typesTag⟩ (some ty) []
                , .elem ⟨nsDisc2005, scopesTag⟩ (some sc) []
                , .elem ⟨nsDisc2005, xaddrsTag⟩ (some xa) []
                , .elem ⟨nsDisc2005, metadataVersionTag⟩ (some mv) [] ] ] ] ]

/-- ProbeMatch response document shaped as a device following the 2009/01
profile sends it: 2005/08 addressing header, 2009/01 discovery body, the
same field texts. -/
def mkProbeMatch2009 (rel addr xa ty sc mv : String) : XML :=
  .elem ⟨nsSoap, "Envelope"⟩ none
    [ .elem ⟨nsSoap, "Header"⟩ none
        [ .elem ⟨nsAddr2005, actionTag⟩ (some ACTION_PROBE_MATCHES_2009) []
        , .elem ⟨nsAddr2005, relatesToTag⟩ (some rel) [] ]
    , .elem ⟨nsSoap, "Body"⟩ none
        [ .elem ⟨nsDisc2009, probeMatchesStr⟩ none
            [ .elem ⟨nsDisc2009, probeMatchStr⟩ none
                [ .elem ⟨nsAddr2005, endpointReferenceTag⟩ none
                    [ .elem ⟨nsAddr2005, addressTag⟩ (some addr) [] ]
                , .elem ⟨nsDisc2009, typesTag⟩ (some ty) []
                , .elem ⟨nsDisc2009, scopesTag⟩ (some sc) []
                , .elem ⟨nsDisc2009, xaddrsTag⟩ (some xa) []
                , .elem ⟨nsDisc2009, metadataVersionTag⟩ (some mv) [] ] ] ] ]

/-- Projection of a DiscoveredDevice onto the fields that do not depend on
the network origin or the receipt time. -/
def coreFields (d : DiscoveredDevice) :
    String × List String × List String × List String × Option Int × String × Option String :=
  (d.endpoint_uuid, d.xaddrs, d.types, d.scopes, d.metadata_version, d.message_type, d.relates_to)

/-- Envelope with a single Action header whose text is a parameter, and a
body holding both a ProbeMatch block and a Hello block, so that the
classification of the Action value alone decides the outcome. -/
def classTree (a : String) : XML :=
  .elem ⟨nsSoap, "Envelope"⟩ none
    [ .elem ⟨nsSoap, "Header"⟩ none
        [ .elem ⟨nsAddr2004, actionTag⟩ (some a) [] ]
    , .elem ⟨nsSoap, "Body"⟩ none
        [ .elem ⟨nsDisc2005, probeMatchesStr⟩ none
            [ .elem ⟨nsDisc2005, probeMatchStr⟩ none
                [ .elem ⟨nsAddr2004, endpointReferenceTag⟩ none
                    [ .elem ⟨nsAddr2004, addressTag⟩ (some "urn:uuid:pm1") [] ] ] ]
        , .elem ⟨nsDisc2005, helloStr⟩ none
            [ .elem ⟨nsAddr2004, endpointReferenceTag⟩ none
                [ .elem ⟨nsAddr2004, addressTag⟩ (some "urn:uuid:h1") [] ] ] ] ]

/-- Three-stage lookup chain: the active-profile result when present, else
the first raw-URI result, else the second. -/
def layeredLookup (primary fb1 fb2 : Option XML) : Option XML :=
  match primary with
  | some e => some e
  | none =>
    match fb1 with
    | some e => some e
    | none => fb2

/-- Spec-following definition for the layered body-field lookup the spec
describes: active profile first, then the 2005/04 URI, then the 2009/01
URI. -/
def extract_element_text_layered (match_elem : XML) (elem_name : String)
    (active_ns : NsMap) : Option XML :=
  layeredLookup
    (findChild ⟨active_ns.d, elem_name⟩ match_elem)
    (findChild ⟨nsDisc2005, elem_name⟩ match_elem)
    (findChild ⟨nsDisc2009, elem_name⟩ match_elem)

/-- Spec-following definition for the layered endpoint-address lookup:
active-profile addressing first, then the raw addressing URI of each
profile. -/
def extract_endpoint_uuid_layered (match_elem : XML) (active_ns : NsMap) : String :=
  match layeredLookup
      (findDescChild ⟨active_ns.a, endpointReferenceTag⟩ ⟨active_ns.a, addressTag⟩ match_elem)
      (findDesc ⟨nsAddr2004, addressTag⟩ match_elem)
      (findDesc ⟨nsAddr2005, addressTag⟩ match_elem) with
  | some e => truthyStrip e.text
  | none => ""

/-- Spec-following definition for what the spec claims about the
correlation reference: the same layered fallback, i.e. active-profile
addressing first, then the raw addressing URI of each profile. -/
def extract_relates_to_layered (root : XML) (message_type : String)
    (active_ns : NsMap) : Option String :=
  if message_type ≠ probeMatchStr then none
  else
    truthyStripOpt
      (layeredLookup
        (findDesc ⟨active_ns.a, relatesToTag⟩ root)
        (findDesc ⟨nsAddr2004, relatesToTag⟩ root)
        (findDesc ⟨nsAddr2005, relatesToTag⟩ root))

/-- Document of a real-world mixed-vocabulary device: the Action header
uses 2004/08 addressing (so the active profile becomes NAMESPACES), while
the RelatesTo header uses 2005/08 addressing. -/
def c2tree : XML :=
  .elem ⟨nsSoap, "Envelope"⟩ none
    [ .elem ⟨nsSoap, "Header"⟩ none
        [ .elem ⟨nsAddr2004, actionTag⟩ (some ACTION_PROBE_MATCHES) []
        , .elem ⟨nsAddr2005, relatesToTag⟩ (some "uuid:original-probe") [] ]
    , .elem ⟨nsSoap, "Body"⟩ none
        [ .elem ⟨nsDisc2005, probeMatchesStr⟩ none
            [ .elem ⟨nsDisc2005, probeMatchStr⟩ none
                [ .elem ⟨nsAddr2004, endpointReferenceTag⟩ none
                    [ .elem ⟨nsAddr2004, addressTag⟩ (some "urn:uuid:c2dev") [] ] ] ] ] ]

/-- Document with no RelatesTo header anywhere, used to exercise the
dependency statement about the relates-to extraction. -/
def c2treeBare : XML :=
  .elem ⟨nsSoap, "Envelope"⟩ none
    [ .elem ⟨nsSoap, "Header"⟩ none
        [ .elem ⟨nsAddr2004, actionTag⟩ (some ACTION_PROBE_MATCHES) [] ] ]

-- Concrete inputs reused by the witnesses.

/-- UUID text of the witness run. -/
def wU : String := "w123"

/-- Source address of the witness packets. -/
def wIp : String := "10.0.0.5"

/-- Well-formed ProbeMatch datagram of the witness run, correlated to the
witness run's probe id. -/
def wPkt : Packet :=
  { data := .xml (mkProbeMatch2005 "uuid:w123" "urn:uuid:dev1"
      "http://10.0.0.5/onvif/device_service" "tdn:NetworkVideoTransmitter"
      "onvif://www.onvif.org/type/video_encoder" "1")
    source_ip := wIp
    source_port := 3702
    response_time_ms := 5 }

/-- Device record the witness packet parses to. -/
def wDev : DiscoveredDevice :=
  { endpoint_uuid := "urn:uuid:dev1"
    xaddrs := ["http://10.0.0.5/onvif/device_service"]
    types := ["tdn:NetworkVideoTransmitter"]
    scopes := ["onvif://www.onvif.org/type/video_encoder"]
    metadata_version := some 1
    source_ip := wIp
    source_port := 3702
    response_time_ms := 5
    message_type := probeMatchStr
    relates_to := some "uuid:w123" }

/-- ProbeMatch record carrying no correlation reference, used by the C10
witness. -/
def wNoRel : DiscoveredDevice :=
  { endpoint_uuid := "urn:uuid:dev2"
    xaddrs := []
    types := []
    scopes := []
    metadata_version := none
    source_ip := wIp
    source_port := 3702
    response_time_ms := 7
    message_type := probeMatchStr
    relates_to := none }

/-- Second correlated ProbeMatch datagram of the witness run: the same
endpoint identity as wPkt (so the same dedup key) but different field
values, answering over another interface. -/
def wPkt2 : Packet :=
  { data := .xml (mkProbeMatch2005 "uuid:w123" "urn:uuid:dev1"
      "http://10.0.0.6/onvif/device_service" "tdn:NetworkVideoTransmitter"
      "onvif://www.onvif.org/type/ptz" "2")
    source_ip := "10.0.0.6"
    source_port := 3702
    response_time_ms := 9 }

/-- Device record the second witness packet parses to: same dedup key as
wDev, different record. -/
def wDev2 : DiscoveredDevice :=
  { endpoint_uuid := "urn:uuid:dev1"
    xaddrs := ["http://10.0.0.6/onvif/device_service"]
    types := ["tdn:NetworkVideoTransmitter"]
    scopes := ["onvif://www.onvif.org/type/ptz"]
    metadata_version := some 2
    source_ip := "10.0.0.6"
    source_port := 3702
    response_time_ms := 9
    message_type := probeMatchStr
    relates_to := some "uuid:w123" }

/-- Bridge between the executable prefix scan and List.IsPrefix. -/
lemma listPrefixEq_iff (n h : List Char) : listPrefixEq n h = true ↔ n <+: h := by
  induction n generalizing h with
  | nil => simp [listPrefixEq]
  | cons a as ih =>
    cases h with
    | nil => simp [listPrefixEq]
    | cons b bs =>
      rw [listPrefixEq, Bool.and_eq_true, beq_iff_eq, ih]
      constructor
      · rintro ⟨rfl, t, rfl⟩
        exact ⟨t, rfl⟩
      · rintro ⟨t, ht⟩
        injection ht with h1 h2
        exact ⟨h1, t, h2⟩

/-- Bridge between the executable substring scan and List.IsInfix. -/
lemma listContains_iff (n h : List Char) : listContains n h = true ↔ n <:+: h := by
  induction h with
  | nil =>
    rw [listContains]
    simp [List.isEmpty_iff]
  | cons b bs ih =>
    rw [listContains, Bool.or_eq_true, listPrefixEq_iff, ih]
    exact (List.infix_cons_iff).symm

/-- Dropping a leading run of p-characters neither creates nor destroys an
occurrence of a pattern whose first character fails p. -/
lemma isInfix_dropWhile_iff (p : Char → Bool) (c : Char) (cs : List Char)
    (hc : p c = false) (h : List Char) :
    c :: cs <:+: h.dropWhile p ↔ c :: cs <:+: h := by
  constructor
  · intro hI
    exact hI.trans (List.dropWhile_suffix p).isInfix
  · induction h with
    | nil => intro hI; simp at hI
    | cons b bs ih =>
      intro hI
      by_cases hb : p b
      · rw [List.dropWhile_cons, if_pos hb]
        apply ih
        rcases (List.infix_cons_iff).mp hI with hpre | hinf
        · obtain ⟨t, ht⟩ := hpre
          injection ht with h1 _
          subst h1
          simp [hc] at hb
        · exact hinf
      · rw [List.dropWhile_cons, if_neg hb]
        exact hI

/-- Reversal shuffle for infix facts. -/
lemma isInfix_rev_iff (n X : List Char) : n <:+: X.reverse ↔ n.reverse <:+: X := by
  constructor
  · intro hI
    have h2 := List.reverse_infix.mpr hI
    simpa using h2
  · intro hI
    have h2 := List.reverse_infix.mpr hI
    simpa using h2

/-- Stripping surrounding whitespace neither creates nor destroys an
occurrence of a nonempty whitespace-free pattern. -/
lemma isInfix_trimList_iff (n h : List Char) (hne : n ≠ [])
    (hsp : ∀ c ∈ n, pySpace c = false) :
    n <:+: trimList h ↔ n <:+: h := by
  obtain ⟨c, cs, rfl⟩ : ∃ c cs, n = c :: cs := by
    cases n with
    | nil => exact absurd rfl hne
    | cons c cs => exact ⟨c, cs, rfl⟩
  obtain ⟨c', cs', hr, hc'⟩ :
      ∃ c' cs', (c :: cs).reverse = c' :: cs' ∧ pySpace c' = false := by
    cases hrr : (c :: cs).reverse with
    | nil => exact absurd (congrArg List.length hrr) (by simp)
    | cons c' cs' =>
      refine ⟨c', cs', rfl, hsp c' ?_⟩
      rw [← List.mem_reverse, hrr]
      exact List.mem_cons_self _ _
  have s1 : c :: cs <:+: trimList h ↔
      (c :: cs).reverse <:+: (h.dropWhile pySpace).reverse.dropWhile pySpace :=
    isInfix_rev_iff _ _
  have s2 : (c :: cs).reverse <:+: (h.dropWhile pySpace).reverse.dropWhile pySpace ↔
      (c :: cs).reverse <:+: (h.dropWhile pySpace).reverse := by
    rw [hr]
    exact isInfix_dropWhile_iff pySpace c' cs' hc' _
  have s3 : (c :: cs).reverse <:+: (h.dropWhile pySpace).reverse ↔
      c :: cs <:+: h.dropWhile pySpace := List.reverse_infix
  have s4 : c :: cs <:+: h.dropWhile pySpace ↔ c :: cs <:+: h :=
    isInfix_dropWhile_iff pySpace c cs (hsp c (List.mem_cons_self _ _)) h
  exact ((s1.trans s2).trans s3).trans s4

/-- Stripping the haystack does not change the substring test for a
nonempty whitespace-free needle. -/
lemma strContains_pyStrip (s needle : String) (hne : needle.data ≠ [])
    (hsp : ∀ c ∈ needle.data, pySpace c = false) :
    strContains (pyStrip s) needle = strContains s needle := by
  have hiff : strContains (pyStrip s) needle = true ↔ strContains s needle = true := by
    unfold strContains pyStrip
    rw [show (String.mk (trimList s.data)).data = trimList s.data from rfl]
    exact (listContains_iff needle.data (trimList s.data)).trans
      ((isInfix_trimList_iff needle.data s.data hne hsp).trans
        (listContains_iff needle.data s.data).symm)
  cases hL : strContains (pyStrip s) needle <;> cases hR : strContains s needle <;> simp_all

/-- The script's action-value preprocessing (truthiness plus strip) does
not change the substring test for a nonempty whitespace-free needle. -/
lemma strContains_truthyStrip (a needle : String) (hne : needle.data ≠ [])
    (hsp : ∀ c ∈ needle.data, pySpace c = false) :
    strContains (truthyStrip (some a)) needle = strContains a needle := by
  show strContains (if a = "" then "" else pyStrip a) needle = strContains a needle
  by_cases ha : a = ""
  · subst ha
    simp
  · rw [if_neg ha]
    exact strContains_pyStrip a needle hne hsp

/-- Every entry process_packet can produce either was already in the table
or passed the acceptance policy. -/
lemma accept_of_mem_process_packet {p : Packet} {M : String} {lh : Bool}
    {acc : List (String × DiscoveredDevice)} {kv : String × DiscoveredDevice}
    (h : kv ∈ process_packet p M lh acc) :
    kv ∈ acc ∨ should_accept_device kv.2 M lh = true := by
  unfold process_packet at h
  cases hp : parse_response p.data p.source_ip p.source_port p.response_time_ms with
  | none => rw [hp] at h; exact Or.inl h
  | some d =>
    rw [hp] at h
    replace h : kv ∈ (if should_accept_device d M lh = true
        then process_received_device d acc else acc) := h
    by_cases hacc : should_accept_device d M lh = true
    · rw [if_pos hacc] at h
      unfold process_received_device at h
      by_cases hmem : (acc.map Prod.fst).contains (dedupKey d) = true
      · rw [if_pos hmem] at h; exact Or.inl h
      · rw [if_neg hmem] at h
        rcases List.mem_append.mp h with h' | h'
        · exact Or.inl h'
        · rcases List.mem_singleton.mp h' with rfl
          exact Or.inr hacc
    · rw [if_neg hacc] at h; exact Or.inl h

/-- Fold version of the previous fact, over any packet sequence and any
starting table. -/
lemma accept_of_mem_foldl (packets : List Packet) (M : String) (lh : Bool) :
    ∀ (acc : List (String × DiscoveredDevice)) (kv : String × DiscoveredDevice),
      kv ∈ packets.foldl (fun devices p => process_packet p M lh devices) acc →
      kv ∈ acc ∨ should_accept_device kv.2 M lh = true := by
  induction packets with
  | nil => intro acc kv h; exact Or.inl h
  | cons p ps ih =>
    intro acc kv h
    rw [List.foldl_cons] at h
    rcases ih _ kv h with h' | h'
    · exact accept_of_mem_process_packet h'
    · exact Or.inr h'

/-- Every entry of the receive loop's final table passed the acceptance
policy. -/
lemma accept_of_mem_receive {packets : List Packet} {M : String} {lh : Bool}
    {kv : String × DiscoveredDevice} (h : kv ∈ receive_responses packets M lh) :
    should_accept_device kv.2 M lh = true := by
  rcases accept_of_mem_foldl packets M lh [] kv h with h' | h'
  · simp at h'
  · exact h'

/-- Rendering step of the report: its device list is the table's value
column. -/
lemma report_devices (u : String) (packets : List Packet) (lh : Bool) :
    (discover_devices u packets lh).devices =
      (receive_responses packets (build_probe_message_id u) lh).map Prod.snd := rfl

/-- Devices of the final report come from accepted table entries. -/
lemma accept_of_mem_report {u : String} {packets : List Packet} {lh : Bool}
    {d : DiscoveredDevice} (h : d ∈ (discover_devices u packets lh).devices) :
    should_accept_device d (build_probe_message_id u) lh = true := by
  rw [report_devices] at h
  rcases List.mem_map.mp h with ⟨kv, hkv, rfl⟩
  exact accept_of_mem_receive hkv

/-- C1: for every run and every inbound datagram sequence, a ProbeMatch
record in the final report's device list carries exactly the run's probe
message id in relates_to. -/
theorem c1_probe_match_correlation (u : String) (packets : List Packet) (lh : Bool) :
    ∀ d ∈ (discover_devices u packets lh).devices,
      d.message_type = probeMatchStr → d.relates_to = some (build_probe_message_id u) := by
  intro d hd hpm
  have hacc := accept_of_mem_report hd
  unfold should_accept_device at hacc
  rw [if_pos hpm] at hacc
  by_cases hrel : d.relates_to = some (build_probe_message_id u)
  · exact hrel
  · rw [if_pos hrel] at hacc
    exact Bool.noConfusion hacc

/-- C1 witness: a concrete correlated ProbeMatch run. -/
theorem c1_probe_match_correlation_witness :
    wDev ∈ (discover_devices wU [wPkt] false).devices ∧
      wDev.message_type = probeMatchStr ∧
      wDev.relates_to = some (build_probe_message_id wU) :=
  ⟨by decide, by decide,
    c1_probe_match_correlation wU [wPkt] false wDev (by decide) (by decide)⟩

/-- C4: with listen_hello disabled, no Hello record ever reaches the final
report, whatever arrives. -/
theorem c4_hello_gating (u : String) (packets : List Packet) :
    ∀ d ∈ (discover_devices u packets false).devices, d.message_type ≠ helloStr := by
  intro d hd hhello
  have hacc := accept_of_mem_report hd
  unfold should_accept_device at hacc
  have hne : ¬(d.message_type = probeMatchStr) := by
    rw [hhello]
    decide
  rw [if_neg hne, if_pos ⟨hhello, rfl⟩] at hacc
  exact Bool.noConfusion hacc

/-- C4 witness: a concrete run whose only report entry is not a Hello. -/
theorem c4_hello_gating_witness :
    wDev ∈ (discover_devices wU [wPkt] false).devices ∧ wDev.message_type ≠ helloStr :=
  ⟨by decide, c4_hello_gating wU [wPkt] wDev (by decide)⟩

/-- C10: a ProbeMatch with no correlation reference always fails the
acceptance policy, the probe message id is never empty, and consequently no
ProbeMatch with relates_to = None reaches any report. -/
theorem c10_missing_relates_to_rejected :
    (∀ (d : DiscoveredDevice) (M : String) (lh : Bool),
      d.message_type = probeMatchStr → d.relates_to = none →
        should_accept_device d M lh = false) ∧
    (∀ u : String, build_probe_message_id u ≠ "") ∧
    (∀ (u : String) (packets : List Packet) (lh : Bool),
      ∀ d ∈ (discover_devices u packets lh).devices,
        d.message_type = probeMatchStr → d.relates_to ≠ none) := by
  refine ⟨?_, ?_, ?_⟩
  · intro d M lh hpm hrel
    unfold should_accept_device
    rw [if_pos hpm, hrel, if_pos (by simp)]
  · intro u hu
    have hlen := congrArg String.length hu
    rw [build_probe_message_id] at hlen
    simp [String.length_append] at hlen
    exact absurd hlen.1 (by decide)
  · intro u packets lh d hd hpm hrel
    have hacc := accept_of_mem_report hd
    unfold should_accept_device at hacc
    rw [if_pos hpm, hrel, if_pos (by simp)] at hacc
    exact Bool.noConfusion hacc

/-- C10 witness: a concrete uncorrelated ProbeMatch record is rejected. -/
theorem c10_missing_relates_to_rejected_witness :
    wNoRel.message_type = probeMatchStr ∧ wNoRel.relates_to = none ∧
      should_accept_device wNoRel (build_probe_message_id wU) false = false :=
  ⟨rfl, rfl,
    c10_missing_relates_to_rejected.1 wNoRel (build_probe_message_id wU) false rfl rfl⟩

/-- Folding a fixed point of the step function over any number of copies of
the same input leaves the accumulator unchanged. -/
lemma foldl_replicate_fixed {α β : Type} (f : β → α → β) (a : α) (b : β)
    (hf : f b a = b) : ∀ n : Nat, (List.replicate n a).foldl f b = b := by
  intro n
  induction n with
  | zero => rfl
  | succ n ih => rw [List.replicate_succ, List.foldl_cons, hf]; exact ih

/-- C3: the dedup key is endpointIdentity when non-empty and source
ip:port otherwise; whenever an accepted record arrives while its key is
already in the table, the table is left unchanged (the first-seen record
for the key is kept and the later record dropped, whatever it holds), while
an accepted record with a fresh key is appended; consequently feeding the
same accepted ProbeMatch datagram N >= 1 times leaves exactly its one entry
in the table. -/
theorem c3_dedup_idempotent (M : String) (lh : Bool) :
    (∀ d : DiscoveredDevice, dedupKey d = (if d.endpoint_uuid = ""
      then d.source_ip ++ ":" ++ toString d.source_port else d.endpoint_uuid)) ∧
    (∀ (pre : List Packet) (p : Packet) (d : DiscoveredDevice),
      parse_response p.data p.source_ip p.source_port p.response_time_ms = some d →
      should_accept_device d M lh = true →
      ((dedupKey d ∈ (receive_responses pre M lh).map Prod.fst →
          receive_responses (pre ++ [p]) M lh = receive_responses pre M lh) ∧
        (dedupKey d ∉ (receive_responses pre M lh).map Prod.fst →
          receive_responses (pre ++ [p]) M lh
            = receive_responses pre M lh ++ [(dedupKey d, d)]))) ∧
    (∀ (p : Packet) (d : DiscoveredDevice) (N : Nat),
      parse_response p.data p.source_ip p.source_port p.response_time_ms = some d →
      should_accept_device d M lh = true → 1 ≤ N →
      receive_responses (List.replicate N p) M lh = [(dedupKey d, d)]) := by
  refine ⟨?_, ?_, ?_⟩
  · intro d
    unfold dedupKey
    by_cases he : d.endpoint_uuid = "" <;> simp [he]
  · intro pre p d hp hacc
    have hsplit : receive_responses (pre ++ [p]) M lh
        = process_packet p M lh (receive_responses pre M lh) := by
      unfold receive_responses
      rw [List.foldl_append]
      rfl
    have hproc : process_packet p M lh (receive_responses pre M lh)
        = process_received_device d (receive_responses pre M lh) := by
      unfold process_packet
      rw [hp]
      show (if should_accept_device d M lh = true
        then process_received_device d (receive_responses pre M lh)
        else receive_responses pre M lh) = _
      rw [if_pos hacc]
    constructor
    · intro hmem
      rw [hsplit, hproc]
      unfold process_received_device
      rw [if_pos (List.elem_eq_true_of_mem hmem)]
    · intro hnot
      rw [hsplit, hproc]
      unfold process_received_device
      rw [if_neg (fun hc => hnot (List.mem_of_elem_eq_true hc))]
  · intro p d N hp hacc hN
    obtain ⟨n, rfl⟩ : ∃ n, N = n + 1 := ⟨N - 1, by omega⟩
    have hstep0 : process_packet p M lh [] = [(dedupKey d, d)] := by
      unfold process_packet
      rw [hp]
      show (if should_accept_device d M lh = true
        then process_received_device d [] else []) = _
      rw [if_pos hacc]
      unfold process_received_device
      simp
    have hstep1 : process_packet p M lh [(dedupKey d, d)] = [(dedupKey d, d)] := by
      unfold process_packet
      rw [hp]
      show (if should_accept_device d M lh = true
        then process_received_device d [(dedupKey d, d)] else _) = _
      rw [if_pos hacc]
      unfold process_received_device
      simp
    unfold receive_responses
    rw [List.replicate_succ, List.foldl_cons, hstep0]
    exact foldl_replicate_fixed _ p _ hstep1 n

/-- C3 witness: a second, different record under the same endpoint identity
arrives after the first; the table keeps the first-seen record and the
later record is dropped. -/
theorem c3_dedup_idempotent_witness :
    parse_response wPkt2.data wPkt2.source_ip wPkt2.source_port wPkt2.response_time_ms
        = some wDev2 ∧
      should_accept_device wDev2 (build_probe_message_id wU) false = true ∧
      wDev2 ≠ wDev ∧
      dedupKey wDev2 = dedupKey wDev ∧
      dedupKey wDev2 ∈
        (receive_responses [wPkt] (build_probe_message_id wU) false).map Prod.fst ∧
      receive_responses ([wPkt] ++ [wPkt2]) (build_probe_message_id wU) false
        = receive_responses [wPkt] (build_probe_message_id wU) false :=
  ⟨by decide, by decide, by decide, by decide, by decide,
    (((c3_dedup_idempotent (build_probe_message_id wU) false).2.1 [wPkt] wPkt2 wDev2
      (by decide) (by decide)).1 (by decide))⟩

/-- C6: a malformed datagram parses to None instead of raising, and its
presence anywhere in the inbound sequence leaves the receive loop's result
unchanged: the run completes with the same report devices. -/
theorem c6_malformed_tolerated (M ip : String) (port rt : Nat) (lh : Bool)
    (pre post : List Packet) :
    parse_response RawDatagram.malformed ip port rt = none ∧
      receive_responses (pre ++ ⟨RawDatagram.malformed, ip, port, rt⟩ :: post) M lh =
        receive_responses (pre ++ post) M lh := by
  constructor
  · rfl
  · unfold receive_responses
    rw [List.foldl_append, List.foldl_append, List.foldl_cons]
    rfl

/-- C8: the report's success flag is set exactly when the device table is
non-empty. -/
theorem c8_success_devices (u : String) (packets : List Packet) (lh : Bool) :
    (discover_devices u packets lh).success = true ↔
      (discover_devices u packets lh).devices ≠ [] := by
  show (!(receive_responses packets (build_probe_message_id u) lh).isEmpty) = true ↔
    (receive_responses packets (build_probe_message_id u) lh).map Prod.snd ≠ []
  cases receive_responses packets (build_probe_message_id u) lh with
  | nil => simp
  | cons kv rest => simp

/-- C5: a ProbeMatch encoded under the 2005/04 profile and one encoded
under the 2009/01 profile with the same field texts parse to records that
agree on every field except the network origin and the response time, and
the parse succeeds. -/
theorem c5_namespace_tolerance (rel addr xa ty sc mv ip1 ip2 : String)
    (port1 rt1 port2 rt2 : Nat) :
    (parse_response (RawDatagram.xml (mkProbeMatch2005 rel addr xa ty sc mv))
        ip1 port1 rt1).map coreFields
      = (parse_response (RawDatagram.xml (mkProbeMatch2009 rel addr xa ty sc mv))
        ip2 port2 rt2).map coreFields ∧
    ∃ d1, parse_response (RawDatagram.xml (mkProbeMatch2005 rel addr xa ty sc mv))
        ip1 port1 rt1 = some d1 := by
  constructor
  · rfl
  · exact ⟨_, rfl⟩

/-- C9: classification is a substring test on the Action value, ProbeMatches
first, Hello second, and everything else is not recognized. -/
theorem c9_action_classification (a ip : String) (port rt : Nat) :
    (strContains a probeMatchesStr = true →
      (parse_response (RawDatagram.xml (classTree a)) ip port rt).map
        DiscoveredDevice.message_type = some probeMatchStr) ∧
    (strContains a probeMatchesStr = false → strContains a helloStr = true →
      (parse_response (RawDatagram.xml (classTree a)) ip port rt).map
        DiscoveredDevice.message_type = some helloStr) ∧
    (strContains a probeMatchesStr = false → strContains a helloStr = false →
      parse_response (RawDatagram.xml (classTree a)) ip port rt = none) := by
  have hred : parse_response (RawDatagram.xml (classTree a)) ip port rt =
      parse_recognized (classTree a) NAMESPACES (truthyStrip (some a)) ip port rt := rfl
  have hpm_ne : probeMatchesStr.data ≠ [] := by decide
  have hpm_sp : ∀ c ∈ probeMatchesStr.data, pySpace c = false := by decide
  have hh_ne : helloStr.data ≠ [] := by decide
  have hh_sp : ∀ c ∈ helloStr.data, pySpace c = false := by decide
  refine ⟨?_, ?_, ?_⟩
  · intro h
    rw [hred]
    have hc : classify_action (truthyStrip (some a)) = some probeMatchStr := by
      unfold classify_action
      rw [strContains_truthyStrip a probeMatchesStr hpm_ne hpm_sp, h]
      simp
    unfold parse_recognized
    rw [hc]
    rfl
  · intro h1 h2
    rw [hred]
    have hc : classify_action (truthyStrip (some a)) = some helloStr := by
      unfold classify_action
      rw [strContains_truthyStrip a probeMatchesStr hpm_ne hpm_sp, h1,
        strContains_truthyStrip a helloStr hh_ne hh_sp, h2]
      simp
    unfold parse_recognized
    rw [hc]
    rfl
  · intro h1 h2
    rw [hred]
    have hc : classify_action (truthyStrip (some a)) = none := by
      unfold classify_action
      rw [strContains_truthyStrip a probeMatchesStr hpm_ne hpm_sp, h1,
        strContains_truthyStrip a helloStr hh_ne hh_sp, h2]
      simp
    unfold parse_recognized
    rw [hc]

/-- C9 witness: the 2005/04 ProbeMatches action URI is classified as a
ProbeMatch. -/
theorem c9_action_classification_witness :
    strContains ACTION_PROBE_MATCHES probeMatchesStr = true ∧
      (parse_response (RawDatagram.xml (classTree ACTION_PROBE_MATCHES)) wIp 3702 5).map
        DiscoveredDevice.message_type = some probeMatchStr :=
  ⟨by decide, (c9_action_classification ACTION_PROBE_MATCHES wIp 3702 5).1 (by decide)⟩

/-- C2 counterexample: on a mixed-vocabulary ProbeMatch whose RelatesTo
header sits under the 2005/08 addressing URI while the active profile is
NAMESPACES, the script's relates-to extraction returns None although the
layered fallback the spec describes would find the value; the device still
parses, with relates_to = None. -/
theorem c2_relates_to_fallback_cex :
    extract_relates_to c2tree probeMatchStr NAMESPACES = none ∧
      extract_relates_to_layered c2tree probeMatchStr NAMESPACES
        = some "uuid:original-probe" ∧
      (parse_response (RawDatagram.xml c2tree) wIp 3702 5).map
        DiscoveredDevice.relates_to = some none := by
  refine ⟨by decide, by decide, by decide⟩

/-- C2 amended: the layered fallback is applied to the body fields and to
the endpoint address, while the correlation reference is extracted by a
single active-profile lookup: its result depends on nothing but that one
lookup. -/
theorem c2_layered_fallback_amended :
    (∀ (m : XML) (elem_name : String) (ns : NsMap),
      extract_element_text m elem_name ns = extract_element_text_layered m elem_name ns) ∧
    (∀ (m : XML) (ns : NsMap),
      extract_endpoint_uuid m ns = extract_endpoint_uuid_layered m ns) ∧
    (∀ (root root' : XML) (mt : String) (ns : NsMap),
      findDesc ⟨ns.a, relatesToTag⟩ root = findDesc ⟨ns.a, relatesToTag⟩ root' →
        extract_relates_to root mt ns = extract_relates_to root' mt ns) := by
  refine ⟨?_, ?_, ?_⟩
  · intro m elem_name ns
    unfold extract_element_text extract_element_text_layered layeredLookup
    cases findChild ⟨ns.d, elem_name⟩ m <;>
      cases findChild ⟨nsDisc2005, elem_name⟩ m <;>
        cases findChild ⟨nsDisc2009, elem_name⟩ m <;> rfl
  · intro m ns
    unfold extract_endpoint_uuid extract_endpoint_uuid_layered layeredLookup
    cases findDescChild ⟨ns.a, endpointReferenceTag⟩ ⟨ns.a, addressTag⟩ m <;>
      cases findDesc ⟨nsAddr2004, addressTag⟩ m <;>
        cases findDesc ⟨nsAddr2005, addressTag⟩ m <;> rfl
  · intro root root' mt ns h
    unfold extract_relates_to
    rw [h]

/-- C2 amended witness: two documents agreeing on the single active-profile
RelatesTo lookup get the same extraction result. -/
theorem c2_layered_fallback_amended_witness :
    findDesc ⟨NAMESPACES.a, relatesToTag⟩ c2tree
        = findDesc ⟨NAMESPACES.a, relatesToTag⟩ c2treeBare ∧
      extract_relates_to c2tree probeMatchStr NAMESPACES
        = extract_relates_to c2treeBare probeMatchStr NAMESPACES :=
  ⟨by rfl,
    c2_layered_fallback_amended.2.2 c2tree c2treeBare probeMatchStr NAMESPACES (by rfl)⟩
